import Mathlib

set_option maxRecDepth 8000

/-!
Shallow embedding of the `jf-worker-xray-data-extractor` worker
(`src/worker.ts`) and verification of its specification.

The worker is a single scheduled task: one entry point that, depending on a
`cleanReports` flag, either lists and deletes previously created Xray reports
or creates a new vulnerabilities/violations report.  Every outbound HTTP call
is made through an injected platform client; each call either resolves with a
response `{status, data}` or rejects with an error carrying a message.  We
model the client as a deterministic oracle (`ClientBehavior`), thrown
JavaScript errors as `Except.error` carrying the error message, and we record
the trace of issued HTTP requests so that temporal claims ("the listing call
is never made") can be stated.
-/

namespace XrayWorker

/-- JSON-like values, used to embed the request bodies built by the worker. -/
inductive Json where
  | str (s : String)
  | num (n : Int)
  | arr (elems : List Json)
  | obj (fields : List (String × Json))

/-- HTTP methods used by the worker. -/
inductive Method where
  | post
  | delete
deriving DecidableEq, Repr

/-- An outbound HTTP request as issued through the platform client:
`body` is the second argument of `platformHttp.post` (the request body), and
`configHeaders` are the transport headers from the axios-style config
argument, when one is passed. -/
structure Request where
  method : Method
  path : String
  body : Option Json
  configHeaders : Option (List (String × String))

/-- Outcome of one platform-client call: the promise either resolves with a
response (status code plus parsed body) or rejects with an error message. -/
inductive Outcome (α : Type) where
  | resp (status : Nat) (data : α)
  | exn (msg : String)

/-- Body of a successful report-creation response (`res.data`); the worker
reads its `report_id` field. -/
structure CreateData where
  report_id : String
deriving DecidableEq, Repr

/-- One element of the `reports` array of the listing response, mirroring the
`ReportDetail` interface of `src/worker.ts`; the worker consumes `id` and
`name`. -/
structure ReportDetail where
  id : String
  status : String
  name : String
  progress : Nat
deriving DecidableEq, Repr

/-- Response of a scheduled event, mirroring `ScheduledEventResponse`. -/
structure ScheduledEventResponse where
  message : String
deriving DecidableEq, Repr

/-- Deterministic oracle for the platform client: the outcome of the (single)
report-creation POST, the outcome of the (single) listing POST, and the
outcome of the DELETE for each report id. -/
structure ClientBehavior where
  createOutcome : Outcome CreateData
  listOutcome : Outcome (List ReportDetail)
  deleteOutcome : String → Outcome Unit

/-- Headers object `{'Content-Type': 'application/json'}` as it appears at the
call sites. -/
def contentTypeHeaders : List (String × String) := [("Content-Type", "application/json")]

/-- The same headers object as a JSON value, for the call sites that place it
inside the request body. -/
def contentTypeHeadersJson : Json := .obj [("Content-Type", .str "application/json")]

/-- Path of the vulnerabilities-report creation endpoint. -/
def vulnerabilitiesPath : String := "/xray/api/v1/reports/vulnerabilities"

/-- Path of the violations-report creation endpoint. -/
def violationsPath : String := "/xray/api/v1/reports/violations"

/-- Path (with query string) of the listing endpoint. -/
def listPath : String :=
  "/xray/api/v1/reports?direction=desc&page_num=1&num_of_rows=10&order_by=start_time"

/-- Path of the deletion endpoint for one report id. -/
def deletePath (reportId : String) : String := "/xray/api/v1/reports/" ++ reportId

/-- Embedding of `generateReportName`, with the current UTC calendar date
(`YYYY-MM-DD`, the part of `toISOString()` before `T`) as a parameter. -/
def generateReportName (today : String) : String := "worker_xray_report_" ++ today

/-- Embedding of `createReportPayload`. -/
def createReportPayload (reportName : String) : Json :=
  .obj [
    ("name", .str reportName),
    ("resources", .obj [
      ("projects", .obj [
        ("names", .arr []),
        ("include_key_patterns", .arr [.str "**"]),
        ("number_of_latest_versions", .num 5)
      ])
    ]),
    ("filters", .obj [
      ("vulnerable_component", .str ""),
      ("impacted_artifact", .str ""),
      ("cve", .str ""),
      ("issue_id", .str ""),
      ("severities", .arr [])
    ])
  ]

/-- Fields of a JSON object (empty for non-objects). -/
def Json.fields : Json → List (String × Json)
  | .obj fs => fs
  | _ => []

/-- Body of the violations-creation POST: the object literal
`{...payload, headers: {'Content-Type': 'application/json'}}` — the payload
spread with an extra `headers` field folded into the body itself. -/
def violationsBody (payload : Json) : Json :=
  .obj (payload.fields ++ [("headers", contentTypeHeadersJson)])

/-- The request issued by `generateVulnerabilitiesReport`: payload as body,
content-type header passed in the config argument. -/
def vulnerabilitiesRequest (payload : Json) : Request :=
  { method := .post, path := vulnerabilitiesPath,
    body := some payload, configHeaders := some contentTypeHeaders }

/-- The request issued by `generateViolationsReport`: the payload spread with
a `headers` field as body, and no config argument. -/
def violationsRequest (payload : Json) : Request :=
  { method := .post, path := violationsPath,
    body := some (violationsBody payload), configHeaders := none }

/-- The request issued by `listReports`: the headers object is passed as the
second (body) argument of `post`, so it becomes the request body, and no
config argument is passed. -/
def listRequest : Request :=
  { method := .post, path := listPath,
    body := some (.obj [("headers", contentTypeHeadersJson)]), configHeaders := none }

/-- The request issued by `deleteReports` for a single report id. -/
def deleteRequest (reportId : String) : Request :=
  { method := .delete, path := deletePath reportId,
    body := none, configHeaders := some contentTypeHeaders }

/-- Embedding of `generateVulnerabilitiesReport`: issues a POST with the
payload as body and the content-type header in the config; on a resolved
response with status `200 || < 400` returns `res.data.report_id`, otherwise
throws inside the `try`, and the `catch` block rewraps any error (including
that one) with the fixed prefix.  Returns the issued requests and the result
(`Except.error` models the rethrown error's message). -/
def generateVulnerabilitiesReport (co : Outcome CreateData) (payload : Json) :
    List Request × Except String String :=
  let req : Request := vulnerabilitiesRequest payload
  let tryBlock : Except String String :=
    match co with
    | .resp status d =>
        if status == 200 || status < 400 then .ok d.report_id
        else .error ("Failed to generate the vulnerabilities report: " ++ toString status)
    | .exn m => .error m
  ([req],
    match tryBlock with
    | .ok v => .ok v
    | .error m => .error ("Failed to generate the vulnerabilities report: " ++ m))

/-- Embedding of `generateViolationsReport`: issues a POST whose body is the
payload spread together with a `headers` field (no config argument); the
status check and the catch-rewrap are as in the vulnerabilities variant, with
the violations prefix. -/
def generateViolationsReport (co : Outcome CreateData) (payload : Json) :
    List Request × Except String String :=
  let req : Request := violationsRequest payload
  let tryBlock : Except String String :=
    match co with
    | .resp status d =>
        if status == 200 || status < 400 then .ok d.report_id
        else .error ("Failed to generate the violations report: " ++ toString status)
    | .exn m => .error m
  ([req],
    match tryBlock with
    | .ok v => .ok v
    | .error m => .error ("Failed to generate the violations report: " ++ m))

/-- Name prefix used to recognize reports created by this worker. -/
def workerPrefix : String := "worker_xray_report_"

/-- JavaScript's `String.prototype.startsWith`, modelled on the character
sequences of the two strings. -/
def strStartsWith (s pre : String) : Bool := pre.data.isPrefixOf s.data

/-- Embedding of `listReports`: issues a POST to the listing endpoint whose
body is the object `{headers: {'Content-Type': 'application/json'}}` (the
call site passes the headers object as the second, body, argument); on a
resolved response with status `200 || < 400` filters the reports by name
prefix and returns the parallel id/name lists, otherwise throws inside the
`try`; the `catch` rewraps any error with the fixed prefix. -/
def listReports (lo : Outcome (List ReportDetail)) :
    List Request × Except String (List String × List String) :=
  let req : Request := listRequest
  let tryBlock : Except String (List String × List String) :=
    match lo with
    | .resp status reports =>
        if status == 200 || status < 400 then
          let filteredReports := reports.filter (fun r => strStartsWith r.name workerPrefix)
          if filteredReports.length == 0 then .ok ([], [])
          else .ok (filteredReports.map (fun r => r.id), filteredReports.map (fun r => r.name))
        else .error ("Failed to retrieve the reports: " ++ toString status)
    | .exn m => .error m
  ([req],
    match tryBlock with
    | .ok v => .ok v
    | .error m => .error ("Failed to retrieve the reports: " ++ m))

/-- The `for` loop of `deleteReports`: issues a DELETE per id sequentially; a
resolved response only triggers logging (success or warning) and the loop
continues, while a rejected call throws out of the loop, so later ids are not
attempted. -/
def deleteReportsLoop (del : String → Outcome Unit) :
    List String → List Request × Except String Unit
  | [] => ([], .ok ())
  | reportId :: rest =>
      let req : Request := deleteRequest reportId
      match del reportId with
      | .resp _ _ =>
          let (reqs, r) := deleteReportsLoop del rest
          (req :: reqs, r)
      | .exn m => ([req], .error m)

/-- Embedding of `deleteReports`: the whole loop runs inside a `try` whose
`catch` only logs the error and does not rethrow, so the function always
resolves. -/
def deleteReports (del : String → Outcome Unit) (reportIds : List String) :
    List Request × Except String Unit :=
  let (reqs, r) := deleteReportsLoop del reportIds
  (reqs,
    match r with
    | .ok _ => .ok ()
    | .error _ => .ok ())

/-- Result of one invocation of the entry point: the returned response, the
trace of HTTP requests issued during the run, and the argument `deleteReports`
was invoked with (`none` when it was never invoked). -/
structure RunResult where
  resp : ScheduledEventResponse
  trace : List Request
  deleterArg : Option (List String)

/-- Embedding of the default-exported entry point, with the two module-level
configuration constants (`reportType`, `cleanReports`) and the current date
abstracted as parameters.  Mode A (`cleanReports = true`) lists, then deletes
when the filtered list is non-empty; mode B computes the name and payload,
dispatches on the report type, lists for logging, and returns the fixed
success message; each mode's `try/catch` turns a thrown error into the
returned message. -/
def runWorker (reportType : String) (cleanReports : Bool) (today : String)
    (cb : ClientBehavior) : RunResult :=
  if cleanReports then
    let lreqs := (listReports cb.listOutcome).1
    match (listReports cb.listOutcome).2 with
    | .ok (reportIds, _) =>
        if reportIds.length > 0 then
          let dreqs := (deleteReports cb.deleteOutcome reportIds).1
          { resp := ⟨"Successfully deleted " ++ toString reportIds.length ++ " reports."⟩,
            trace := lreqs ++ dreqs, deleterArg := some reportIds }
        else
          { resp := ⟨"No reports found to delete."⟩, trace := lreqs, deleterArg := none }
    | .error m => { resp := ⟨m⟩, trace := lreqs, deleterArg := none }
  else
    let reportName := generateReportName today
    let payload := createReportPayload reportName
    let gen :=
      if reportType == "vulnerabilities" then
        generateVulnerabilitiesReport cb.createOutcome payload
      else if reportType == "violations" then
        generateViolationsReport cb.createOutcome payload
      else
        ([], .error ("Unknown report type: " ++ reportType))
    match gen.2 with
    | .error m => { resp := ⟨m⟩, trace := gen.1, deleterArg := none }
    | .ok _ =>
        let lreqs := (listReports cb.listOutcome).1
        match (listReports cb.listOutcome).2 with
        | .error m => { resp := ⟨m⟩, trace := gen.1 ++ lreqs, deleterArg := none }
        | .ok _ =>
            { resp := ⟨"Vulnerabilities report " ++ reportName ++ " was successfully generated."⟩,
              trace := gen.1 ++ lreqs, deleterArg := none }

/-- Default value of the module-level `reportType` constant. -/
def defaultReportType : String := "violations"

/-- Default value of the module-level `cleanReports` constant. -/
def defaultCleanReports : Bool := false

/-! ### Concrete client behaviors used to exercise the model -/

/-- Deletion oracle whose calls all resolve with status 200. -/
def okDelete : String → Outcome Unit := fun _ => .resp 200 ()

/-- Deletion oracle where the DELETE for report `b` resolves with a
non-success status and every other DELETE resolves with 200. -/
def failBDelete : String → Outcome Unit :=
  fun reportId => if reportId = "b" then .resp 500 () else .resp 200 ()

/-- Deletion oracle where the DELETE for report `b` rejects (the client call
throws) and every other DELETE resolves with 200. -/
def throwBDelete : String → Outcome Unit :=
  fun reportId => if reportId = "b" then .exn "network down" else .resp 200 ()

/-- Three reports previously created by the worker, as they would come back
from the listing endpoint. -/
def sampleReports : List ReportDetail :=
  [⟨"a", "completed", "worker_xray_report_2025-01-01", 100⟩,
   ⟨"b", "completed", "worker_xray_report_2025-01-02", 100⟩,
   ⟨"c", "completed", "worker_xray_report_2025-01-03", 100⟩]

/-- Clean-run behavior over `sampleReports` whose deletions all succeed. -/
def cleanOkBehavior : ClientBehavior :=
  { createOutcome := .exn "unused", listOutcome := .resp 200 sampleReports,
    deleteOutcome := okDelete }

/-- Clean-run behavior over `sampleReports` where the DELETE for report `b`
rejects. -/
def cleanThrowBehavior : ClientBehavior :=
  { createOutcome := .exn "unused", listOutcome := .resp 200 sampleReports,
    deleteOutcome := throwBDelete }

/-- Generate-run behavior: creation resolves 200 with `report_id = "R1"`,
listing resolves 200 with `sampleReports`. -/
def generateOkBehavior : ClientBehavior :=
  { createOutcome := .resp 200 ⟨"R1"⟩, listOutcome := .resp 200 sampleReports,
    deleteOutcome := okDelete }

/-- Behavior where the creation call resolves with status 500. -/
def createFailBehavior : ClientBehavior :=
  { createOutcome := .resp 500 ⟨"R1"⟩, listOutcome := .resp 200 sampleReports,
    deleteOutcome := okDelete }

/-! ### Shared helper lemmas -/

/-- The worker's success check `status === 200 || status < 400` holds for any
status below 400. -/
theorem success_cond_true {s : Nat} (h : s < 400) : (s == 200 || decide (s < 400)) = true := by
  simp [h]

/-- The worker's success check fails exactly for statuses at or above 400. -/
theorem success_cond_false {s : Nat} (h : 400 ≤ s) : (s == 200 || decide (s < 400)) = false := by
  simp only [Bool.or_eq_false_iff, beq_eq_false_iff_ne, ne_eq, decide_eq_false_iff_not,
    Nat.not_lt]
  omega

/-- The Report Lister issues exactly the fixed listing request, whatever the
outcome. -/
theorem listReports_requests (lo : Outcome (List ReportDetail)) :
    (listReports lo).1 = [listRequest] := rfl

/-- The vulnerabilities requester issues exactly its creation request. -/
theorem generateVulnerabilitiesReport_requests (co : Outcome CreateData) (payload : Json) :
    (generateVulnerabilitiesReport co payload).1 = [vulnerabilitiesRequest payload] := rfl

/-- The violations requester issues exactly its creation request. -/
theorem generateViolationsReport_requests (co : Outcome CreateData) (payload : Json) :
    (generateViolationsReport co payload).1 = [violationsRequest payload] := rfl

/-! ### Claims -/

/-- C5: on a successful listing response with report list `L`, `listReports`
returns the id column and name column of exactly the elements of `L` whose
name starts with `worker_xray_report_`, in order and index-aligned (both
columns come from the same filtered sublist); in particular when nothing
matches it returns two empty lists instead of failing. -/
theorem listReports_success_spec (s : Nat) (L : List ReportDetail) (h : s < 400) :
    (listReports (.resp s L)).2 =
      .ok ((L.filter (fun r => strStartsWith r.name workerPrefix)).map (fun r => r.id),
           (L.filter (fun r => strStartsWith r.name workerPrefix)).map (fun r => r.name)) := by
  by_cases h0 : L.filter (fun r => strStartsWith r.name workerPrefix) = []
  · simp [listReports, h, h0]
  · have hl : ((L.filter (fun r => strStartsWith r.name workerPrefix)).length == 0) = false := by
      simp [List.length_eq_zero, h0]
    simp [listReports, h, hl]

/-- Witness for C5: a concrete successful listing with one matching and one
non-matching report. -/
theorem listReports_success_spec_witness :
    (200 : Nat) < 400 ∧
    (listReports (.resp 200
        ([⟨"id1", "completed", "worker_xray_report_2025-01-01", 100⟩,
          ⟨"id2", "completed", "other_report", 100⟩] : List ReportDetail))).2 =
      .ok ((([⟨"id1", "completed", "worker_xray_report_2025-01-01", 100⟩,
              ⟨"id2", "completed", "other_report", 100⟩] : List ReportDetail).filter
              (fun r => strStartsWith r.name workerPrefix)).map (fun r => r.id),
           (([⟨"id1", "completed", "worker_xray_report_2025-01-01", 100⟩,
              ⟨"id2", "completed", "other_report", 100⟩] : List ReportDetail).filter
              (fun r => strStartsWith r.name workerPrefix)).map (fun r => r.name)) :=
  ⟨by decide, listReports_success_spec 200 _ (by decide)⟩

/-- C3: for either creation variant, a response with status in the success
range (< 400) makes the Report Requester return exactly the `report_id` field
of the response body, while a response with status ≥ 400 makes it fail with an
error text that contains the status code. -/
theorem requester_status_spec (payload : Json) (s : Nat) (d : CreateData) :
    (s < 400 →
      (generateVulnerabilitiesReport (.resp s d) payload).2 = .ok d.report_id ∧
      (generateViolationsReport (.resp s d) payload).2 = .ok d.report_id) ∧
    (400 ≤ s →
      (∃ m, (generateVulnerabilitiesReport (.resp s d) payload).2 = .error m ∧
        ∃ a b, m = a ++ toString s ++ b) ∧
      (∃ m, (generateViolationsReport (.resp s d) payload).2 = .error m ∧
        ∃ a b, m = a ++ toString s ++ b)) := by
  constructor
  · intro h
    constructor <;> simp [generateVulnerabilitiesReport, generateViolationsReport, h]
  · intro h
    have hc := success_cond_false h
    constructor
    · refine ⟨"Failed to generate the vulnerabilities report: " ++
          ("Failed to generate the vulnerabilities report: " ++ toString s), ?_, ?_⟩
      · simp [generateVulnerabilitiesReport, hc]
      · exact ⟨"Failed to generate the vulnerabilities report: " ++
            "Failed to generate the vulnerabilities report: ", "",
          by rw [String.append_empty, String.append_assoc]⟩
    · refine ⟨"Failed to generate the violations report: " ++
          ("Failed to generate the violations report: " ++ toString s), ?_, ?_⟩
      · simp [generateViolationsReport, hc]
      · exact ⟨"Failed to generate the violations report: " ++
            "Failed to generate the violations report: ", "",
          by rw [String.append_empty, String.append_assoc]⟩

/-- Witness for C3: instantiated at status 200 (success side) and status 500
(failure side). -/
theorem requester_status_spec_witness :
    ((200 : Nat) < 400 →
      (generateVulnerabilitiesReport (.resp 200 ⟨"R1"⟩) (createReportPayload "n")).2 =
        .ok (CreateData.mk "R1").report_id ∧
      (generateViolationsReport (.resp 200 ⟨"R1"⟩) (createReportPayload "n")).2 =
        .ok (CreateData.mk "R1").report_id) ∧
    (400 ≤ (500 : Nat) →
      (∃ m, (generateVulnerabilitiesReport (.resp 500 ⟨"R1"⟩) (createReportPayload "n")).2 =
          .error m ∧ ∃ a b, m = a ++ toString (500 : Nat) ++ b) ∧
      (∃ m, (generateViolationsReport (.resp 500 ⟨"R1"⟩) (createReportPayload "n")).2 =
          .error m ∧ ∃ a b, m = a ++ toString (500 : Nat) ++ b)) :=
  ⟨fun h => (requester_status_spec (createReportPayload "n") 200 ⟨"R1"⟩).1 h,
   fun h => (requester_status_spec (createReportPayload "n") 500 ⟨"R1"⟩).2 h⟩

/-- C10: when the client resolves with a status ≥ 400, the error thrown in the
non-success branch is caught by the same function's catch block and wrapped
again, so the resulting error text carries the fixed prefix twice, for both
creation variants and for the lister. -/
theorem double_wrapped_errors (payload : Json) (s : Nat) (d : CreateData)
    (L : List ReportDetail) (h : 400 ≤ s) :
    (generateVulnerabilitiesReport (.resp s d) payload).2 =
      .error ("Failed to generate the vulnerabilities report: " ++
        ("Failed to generate the vulnerabilities report: " ++ toString s)) ∧
    (generateViolationsReport (.resp s d) payload).2 =
      .error ("Failed to generate the violations report: " ++
        ("Failed to generate the violations report: " ++ toString s)) ∧
    (listReports (.resp s L)).2 =
      .error ("Failed to retrieve the reports: " ++
        ("Failed to retrieve the reports: " ++ toString s)) := by
  have hc := success_cond_false h
  refine ⟨?_, ?_, ?_⟩ <;>
    simp [generateVulnerabilitiesReport, generateViolationsReport, listReports, hc]

/-- Witness for C10: the doubly-wrapped texts at status 500. -/
theorem double_wrapped_errors_witness :
    400 ≤ (500 : Nat) ∧
    ((generateVulnerabilitiesReport (.resp 500 ⟨"R1"⟩) (createReportPayload "n")).2 =
      .error ("Failed to generate the vulnerabilities report: " ++
        ("Failed to generate the vulnerabilities report: " ++ toString (500 : Nat))) ∧
    (generateViolationsReport (.resp 500 ⟨"R1"⟩) (createReportPayload "n")).2 =
      .error ("Failed to generate the violations report: " ++
        ("Failed to generate the violations report: " ++ toString (500 : Nat))) ∧
    (listReports (.resp 500 ([] : List ReportDetail))).2 =
      .error ("Failed to retrieve the reports: " ++
        ("Failed to retrieve the reports: " ++ toString (500 : Nat)))) :=
  ⟨by decide, double_wrapped_errors (createReportPayload "n") 500 ⟨"R1"⟩ [] (by decide)⟩

/-- C1: in a clean run (`cleanReports = true`) whose listing succeeds with
identifier list `ids`: when `ids` is empty the message is
`"No reports found to delete."` and the Report Deleter is never invoked;
otherwise the deleter is invoked on exactly `ids` and the message reports
their count. -/
theorem clean_mode_spec (rt today : String) (cb : ClientBehavior) (ids names : List String)
    (h : (listReports cb.listOutcome).2 = .ok (ids, names)) :
    (ids = [] →
      (runWorker rt true today cb).resp.message = "No reports found to delete." ∧
      (runWorker rt true today cb).deleterArg = none) ∧
    (ids ≠ [] →
      (runWorker rt true today cb).deleterArg = some ids ∧
      (runWorker rt true today cb).resp.message =
        "Successfully deleted " ++ toString ids.length ++ " reports.") := by
  constructor
  · rintro rfl
    simp [runWorker, h]
  · intro hne
    have hlen : 0 < ids.length := List.length_pos.mpr hne
    exact ⟨by simp [runWorker, h, hlen], by simp [runWorker, h, hlen]⟩

/-- Witness for C1: a clean run over three previously created reports. -/
theorem clean_mode_spec_witness :
    (["a", "b", "c"] : List String) ≠ [] ∧
    ((runWorker "violations" true "2025-01-04" cleanOkBehavior).deleterArg =
        some ["a", "b", "c"] ∧
      (runWorker "violations" true "2025-01-04" cleanOkBehavior).resp.message =
        "Successfully deleted " ++ toString (["a", "b", "c"] : List String).length ++
          " reports.") :=
  ⟨by decide,
    (clean_mode_spec "violations" "2025-01-04" cleanOkBehavior ["a", "b", "c"]
      ["worker_xray_report_2025-01-01", "worker_xray_report_2025-01-02",
       "worker_xray_report_2025-01-03"] rfl).2 (by decide)⟩

/-- C2: a generate run (`cleanReports = false`) in which creation and listing
both succeed returns the fixed message
`"Vulnerabilities report <name> was successfully generated."`, where `<name>`
is the name computed by Report Naming, for both configured variants. -/
theorem generate_mode_success_message (rt today : String) (cb : ClientBehavior) (s : Nat)
    (d : CreateData) (ids names : List String)
    (hrt : rt = "vulnerabilities" ∨ rt = "violations")
    (hco : cb.createOutcome = .resp s d) (hs : s < 400)
    (hl : (listReports cb.listOutcome).2 = .ok (ids, names)) :
    (runWorker rt false today cb).resp.message =
      "Vulnerabilities report " ++ generateReportName today ++
        " was successfully generated." := by
  rcases hrt with rfl | rfl <;>
    simp [runWorker, generateVulnerabilitiesReport, generateViolationsReport, hco, hs, hl]

/-- Witness for C2: a successful violations run still reports
"Vulnerabilities report …". -/
theorem generate_mode_success_message_witness :
    (("violations" : String) = "vulnerabilities" ∨ ("violations" : String) = "violations") ∧
    (200 : Nat) < 400 ∧
    (runWorker "violations" false "2025-01-04" generateOkBehavior).resp.message =
      "Vulnerabilities report " ++ generateReportName "2025-01-04" ++
        " was successfully generated." :=
  ⟨Or.inr rfl, by decide,
    generate_mode_success_message "violations" "2025-01-04" generateOkBehavior 200 ⟨"R1"⟩
      ["a", "b", "c"]
      ["worker_xray_report_2025-01-01", "worker_xray_report_2025-01-02",
       "worker_xray_report_2025-01-03"]
      (Or.inr rfl) rfl (by decide) rfl⟩

/-- C4: when the creation call resolves with a failing status (≥ 400) in a
generate run, the orchestrator returns the requester's error text as the
message — which contains
`"Failed to generate the <variant> report: <status>"` — and the listing call
is never made in that run. -/
theorem generate_mode_create_failure (today : String) (cb : ClientBehavior) (s : Nat)
    (d : CreateData) (hco : cb.createOutcome = .resp s d) (hs : 400 ≤ s) :
    ((generateViolationsReport cb.createOutcome
        (createReportPayload (generateReportName today))).2 =
        .error (runWorker "violations" false today cb).resp.message ∧
      (∃ a b, (runWorker "violations" false today cb).resp.message =
        a ++ ("Failed to generate the violations report: " ++ toString s) ++ b) ∧
      listRequest ∉ (runWorker "violations" false today cb).trace) ∧
    ((generateVulnerabilitiesReport cb.createOutcome
        (createReportPayload (generateReportName today))).2 =
        .error (runWorker "vulnerabilities" false today cb).resp.message ∧
      (∃ a b, (runWorker "vulnerabilities" false today cb).resp.message =
        a ++ ("Failed to generate the vulnerabilities report: " ++ toString s) ++ b) ∧
      listRequest ∉ (runWorker "vulnerabilities" false today cb).trace) := by
  have hcond := success_cond_false hs
  have hviol : (generateViolationsReport cb.createOutcome
      (createReportPayload (generateReportName today))).2 =
      .error ("Failed to generate the violations report: " ++
        ("Failed to generate the violations report: " ++ toString s)) := by
    simp [generateViolationsReport, hco, hcond]
  have hvuln : (generateVulnerabilitiesReport cb.createOutcome
      (createReportPayload (generateReportName today))).2 =
      .error ("Failed to generate the vulnerabilities report: " ++
        ("Failed to generate the vulnerabilities report: " ++ toString s)) := by
    simp [generateVulnerabilitiesReport, hco, hcond]
  have hrunV : runWorker "violations" false today cb =
      { resp := ⟨"Failed to generate the violations report: " ++
          ("Failed to generate the violations report: " ++ toString s)⟩,
        trace := [violationsRequest (createReportPayload (generateReportName today))],
        deleterArg := none } := by
    simp [runWorker, hviol, generateViolationsReport_requests]
  have hrunU : runWorker "vulnerabilities" false today cb =
      { resp := ⟨"Failed to generate the vulnerabilities report: " ++
          ("Failed to generate the vulnerabilities report: " ++ toString s)⟩,
        trace := [vulnerabilitiesRequest (createReportPayload (generateReportName today))],
        deleterArg := none } := by
    simp [runWorker, hvuln, generateVulnerabilitiesReport_requests]
  refine ⟨⟨?_, ?_, ?_⟩, ⟨?_, ?_, ?_⟩⟩
  · rw [hrunV]; exact hviol
  · rw [hrunV]
    exact ⟨"Failed to generate the violations report: ", "", by rw [String.append_empty]⟩
  · rw [hrunV]
    simp [listRequest, violationsRequest, listPath, violationsPath]
  · rw [hrunU]; exact hvuln
  · rw [hrunU]
    exact ⟨"Failed to generate the vulnerabilities report: ", "", by rw [String.append_empty]⟩
  · rw [hrunU]
    simp [listRequest, vulnerabilitiesRequest, listPath, vulnerabilitiesPath]

/-- Witness for C4: creation resolving with status 500. -/
theorem generate_mode_create_failure_witness :
    createFailBehavior.createOutcome = .resp 500 ⟨"R1"⟩ ∧ 400 ≤ (500 : Nat) ∧
    (((generateViolationsReport createFailBehavior.createOutcome
        (createReportPayload (generateReportName "2025-01-04"))).2 =
        .error (runWorker "violations" false "2025-01-04" createFailBehavior).resp.message ∧
      (∃ a b, (runWorker "violations" false "2025-01-04" createFailBehavior).resp.message =
        a ++ ("Failed to generate the violations report: " ++ toString (500 : Nat)) ++ b) ∧
      listRequest ∉ (runWorker "violations" false "2025-01-04" createFailBehavior).trace) ∧
    ((generateVulnerabilitiesReport createFailBehavior.createOutcome
        (createReportPayload (generateReportName "2025-01-04"))).2 =
        .error (runWorker "vulnerabilities" false "2025-01-04"
          createFailBehavior).resp.message ∧
      (∃ a b, (runWorker "vulnerabilities" false "2025-01-04"
          createFailBehavior).resp.message =
        a ++ ("Failed to generate the vulnerabilities report: " ++ toString (500 : Nat)) ++ b) ∧
      listRequest ∉ (runWorker "vulnerabilities" false "2025-01-04"
        createFailBehavior).trace)) :=
  ⟨rfl, by decide,
    generate_mode_create_failure "2025-01-04" createFailBehavior 500 ⟨"R1"⟩ rfl (by decide)⟩

/-- When every DELETE in the list resolves, the delete loop issues one request
per identifier, in order, and finishes normally. -/
theorem deleteReportsLoop_all_resolved (del : String → Outcome Unit) (ids : List String)
    (h : ∀ reportId ∈ ids, ∃ s u, del reportId = .resp s u) :
    deleteReportsLoop del ids = (ids.map deleteRequest, .ok ()) := by
  induction ids with
  | nil => rfl
  | cons a rest ih =>
      obtain ⟨s, u, hs⟩ := h a (List.mem_cons_self a rest)
      have ih' := ih (fun x hx => h x (List.mem_cons_of_mem a hx))
      simp [deleteReportsLoop, hs, ih']

/-- C6: a non-success HTTP status while deleting one identifier does not abort
the batch — when every DELETE call resolves (whatever its status), the Report
Deleter attempts every identifier, in order, and completes without raising. -/
theorem deleteReports_best_effort (del : String → Outcome Unit) (ids : List String)
    (h : ∀ reportId ∈ ids, ∃ s u, del reportId = .resp s u) :
    deleteReports del ids = (ids.map deleteRequest, .ok ()) := by
  simp [deleteReports, deleteReportsLoop_all_resolved del ids h]

/-- Witness for C6: deleting `["a","b","c"]` where the DELETE for `b` resolves
with status 500 still attempts `c` and completes. -/
theorem deleteReports_best_effort_witness :
    (∀ reportId ∈ (["a", "b", "c"] : List String), ∃ s u, failBDelete reportId = .resp s u) ∧
    deleteReports failBDelete ["a", "b", "c"] =
      ((["a", "b", "c"] : List String).map deleteRequest, .ok ()) := by
  have h : ∀ reportId ∈ (["a", "b", "c"] : List String),
      ∃ s u, failBDelete reportId = .resp s u := by
    intro x hx
    fin_cases hx
    · exact ⟨200, (), rfl⟩
    · exact ⟨500, (), rfl⟩
    · exact ⟨200, (), rfl⟩
  exact ⟨h, deleteReports_best_effort failBDelete ["a", "b", "c"] h⟩

/-- Counterexample to C7: with the DELETE for report `b` rejecting (a thrown,
non-HTTP error), the clean run still returns
`"Successfully deleted 3 reports."` — the failure is not reported by the
caller — even though report `c` is indeed never attempted (the trace stops at
`b`). -/
theorem delete_throw_counterexample :
    (runWorker "violations" true "2025-01-04" cleanThrowBehavior).resp.message =
      "Successfully deleted 3 reports." ∧
    (runWorker "violations" true "2025-01-04" cleanThrowBehavior).trace =
      [listRequest, deleteRequest "a", deleteRequest "b"] :=
  ⟨rfl, rfl⟩

/-- When the DELETE for `reportId` rejects after a resolved prefix `pre`, the
loop stops right after `reportId` and propagates the thrown error. -/
theorem deleteReportsLoop_throw (del : String → Outcome Unit) (pre post : List String)
    (reportId m : String) (hpre : ∀ x ∈ pre, ∃ s u, del x = .resp s u)
    (hthrow : del reportId = .exn m) :
    deleteReportsLoop del (pre ++ reportId :: post) =
      ((pre ++ [reportId]).map deleteRequest, .error m) := by
  induction pre with
  | nil => simp [deleteReportsLoop, hthrow]
  | cons a rest ih =>
      obtain ⟨s, u, hs⟩ := hpre a (List.mem_cons_self a rest)
      have ih' := ih (fun x hx => hpre x (List.mem_cons_of_mem a hx))
      simp [deleteReportsLoop, hs, ih']

/-- C7 amended: if the DELETE for some identifier rejects (a non-HTTP error),
the remaining identifiers are indeed not attempted, but `deleteReports`
catches the error itself and resolves normally, so the orchestrator still
reports the whole batch as successfully deleted — the failure is not visible
in the returned message. -/
theorem delete_throw_spec (del : String → Outcome Unit) (pre post : List String)
    (reportId m rt today : String) (cb : ClientBehavior) (ids names : List String)
    (hpre : ∀ x ∈ pre, ∃ s u, del x = .resp s u) (hthrow : del reportId = .exn m)
    (hl : (listReports cb.listOutcome).2 = .ok (ids, names)) (hne : ids ≠ []) :
    deleteReports del (pre ++ reportId :: post) =
      ((pre ++ [reportId]).map deleteRequest, .ok ()) ∧
    (runWorker rt true today cb).resp.message =
      "Successfully deleted " ++ toString ids.length ++ " reports." := by
  constructor
  · simp [deleteReports, deleteReportsLoop_throw del pre post reportId m hpre hthrow]
  · have hlen : 0 < ids.length := List.length_pos.mpr hne
    simp [runWorker, hl, hlen]

/-- Witness for C7 (amended): the rejected DELETE for `b` in the middle of
`["a","b","c"]`. -/
theorem delete_throw_spec_witness :
    (∀ x ∈ (["a"] : List String), ∃ s u, throwBDelete x = .resp s u) ∧
    throwBDelete "b" = .exn "network down" ∧
    (listReports cleanThrowBehavior.listOutcome).2 =
      .ok (["a", "b", "c"],
        ["worker_xray_report_2025-01-01", "worker_xray_report_2025-01-02",
         "worker_xray_report_2025-01-03"]) ∧
    (["a", "b", "c"] : List String) ≠ [] ∧
    (deleteReports throwBDelete (["a"] ++ "b" :: ["c"]) =
      (((["a"] : List String) ++ ["b"]).map deleteRequest, .ok ()) ∧
    (runWorker "violations" true "2025-01-04" cleanThrowBehavior).resp.message =
      "Successfully deleted " ++ toString ((["a", "b", "c"] : List String).length) ++
        " reports.") := by
  have hpre : ∀ x ∈ (["a"] : List String), ∃ s u, throwBDelete x = .resp s u := by
    intro x hx
    fin_cases hx
    exact ⟨200, (), rfl⟩
  exact ⟨hpre, rfl, rfl, by decide,
    delete_throw_spec throwBDelete ["a"] ["c"] "b" "network down" "violations" "2025-01-04"
      cleanThrowBehavior ["a", "b", "c"]
      ["worker_xray_report_2025-01-01", "worker_xray_report_2025-01-02",
       "worker_xray_report_2025-01-03"]
      hpre rfl rfl (by decide)⟩

/-- C8: the entry point is total — every configuration and client behavior
yields exactly one response, whose message is one of the worker's success
texts or the error text of the failed call; no exception escapes past the
entry point. -/
theorem entry_point_total (rt : String) (clean : Bool) (today : String) (cb : ClientBehavior) :
    (runWorker rt clean today cb).resp.message = "No reports found to delete." ∨
    (∃ n : Nat, (runWorker rt clean today cb).resp.message =
      "Successfully deleted " ++ toString n ++ " reports.") ∨
    (runWorker rt clean today cb).resp.message =
      "Vulnerabilities report " ++ generateReportName today ++
        " was successfully generated." ∨
    (runWorker rt clean today cb).resp.message = "Unknown report type: " ++ rt ∨
    (∃ e, ((listReports cb.listOutcome).2 = .error e ∨
        (generateVulnerabilitiesReport cb.createOutcome
          (createReportPayload (generateReportName today))).2 = .error e ∨
        (generateViolationsReport cb.createOutcome
          (createReportPayload (generateReportName today))).2 = .error e) ∧
      (runWorker rt clean today cb).resp.message = e) := by
  cases clean with
  | true =>
      rcases hE : (listReports cb.listOutcome).2 with e | p
      · exact Or.inr (Or.inr (Or.inr (Or.inr ⟨e, Or.inl rfl, by simp [runWorker, hE]⟩)))
      · obtain ⟨ids, names⟩ := p
        by_cases hlen : 0 < ids.length
        · exact Or.inr (Or.inl ⟨ids.length, by simp [runWorker, hE, hlen]⟩)
        · exact Or.inl (by simp [runWorker, hE, hlen])
  | false =>
      by_cases h1 : (rt == "vulnerabilities") = true
      · rcases hg : (generateVulnerabilitiesReport cb.createOutcome
            (createReportPayload (generateReportName today))).2 with e | v
        · exact Or.inr (Or.inr (Or.inr (Or.inr
            ⟨e, Or.inr (Or.inl rfl), by simp [runWorker, h1, hg]⟩)))
        · rcases hE : (listReports cb.listOutcome).2 with e | p
          · exact Or.inr (Or.inr (Or.inr (Or.inr
              ⟨e, Or.inl rfl, by simp [runWorker, h1, hg, hE]⟩)))
          · exact Or.inr (Or.inr (Or.inl (by simp [runWorker, h1, hg, hE])))
      · by_cases h2 : (rt == "violations") = true
        · rcases hg : (generateViolationsReport cb.createOutcome
              (createReportPayload (generateReportName today))).2 with e | v
          · exact Or.inr (Or.inr (Or.inr (Or.inr
              ⟨e, Or.inr (Or.inr rfl), by simp [runWorker, h1, h2, hg]⟩)))
          · rcases hE : (listReports cb.listOutcome).2 with e | p
            · exact Or.inr (Or.inr (Or.inr (Or.inr
                ⟨e, Or.inl rfl, by simp [runWorker, h1, h2, hg, hE]⟩)))
            · exact Or.inr (Or.inr (Or.inl (by simp [runWorker, h1, h2, hg, hE])))
        · exact Or.inr (Or.inr (Or.inr (Or.inl (by simp [runWorker, h1, h2]))))

/-- Counterexample to C9: the Report Lister's request is not body-less — the
call site passes the headers object as the second (body) argument of `post`,
so the issued request carries it as its request body. -/
theorem list_request_body_counterexample :
    (listReports (Outcome.resp 200 ([] : List ReportDetail))).1 = [listRequest] ∧
    listRequest.body = some (.obj [("headers", contentTypeHeadersJson)]) ∧
    listRequest.body ≠ none := by
  refine ⟨rfl, rfl, ?_⟩
  simp [listRequest]

/-- C9 amended: every list-reports request issued by the Report Lister is a
POST to `reports?direction=desc&page_num=1&num_of_rows=10&order_by=start_time`
under the base path, whose request body is the headers object
`{headers: {'Content-Type': 'application/json'}}` (passed as the body
argument) and which carries no transport config. -/
theorem list_request_spec (lo : Outcome (List ReportDetail)) :
    (listReports lo).1 = [listRequest] ∧
    listRequest.method = .post ∧
    listRequest.path =
      "/xray/api/v1/reports?direction=desc&page_num=1&num_of_rows=10&order_by=start_time" ∧
    listRequest.body = some (.obj [("headers", contentTypeHeadersJson)]) ∧
    listRequest.configHeaders = none :=
  ⟨rfl, rfl, rfl, rfl, rfl⟩

end XrayWorker
